import Mathlib

/-!
Verification development for the buyer-side ONDC protocol adapter
(`sanushilshad/ondc-b2b-buyer`).  The Rust source under `src/` is shallowly
embedded: pure functions become Lean functions, database writes become
explicit state passing over row lists, and fallible or panicking code
returns `Option`/`Except`.  Machine/date/UUID values irrelevant to the
verified properties are modelled as `Nat`; `BigDecimal` is modelled by the
`Decimal` structure below.
-/

/-- Model of `bigdecimal::BigDecimal`: an integer mantissa together with a
decimal scale, so the denoted value is `mantissa / 10 ^ scale`.  Structural
equality is used where the source merely copies values around. -/
structure Decimal where
  mantissa : Int
  scale : Nat
deriving DecidableEq, Repr

/-- Numeric value of a decimal digit character, `none` otherwise. -/
def charDigit (c : Char) : Option Nat :=
  if c.isDigit then some (c.toNat - 48) else none

/-- Folds a digit-character list to its value; `none` when a non-digit occurs. -/
def digitsVal (cs : List Char) : Option Nat :=
  cs.foldl
    (fun acc c =>
      match acc, charDigit c with
      | some a, some d => some (a * 10 + d)
      | _, _ => none)
    (some 0)

/-- Model of `BigDecimal::from_str` on plain decimal literals: an optional
sign, an integer part and an optional fractional part after one dot.
Anything else (such as `"abc"`) is rejected, which in the source surfaces as
a `ParseBigDecimalError`. -/
def Decimal.fromStr (s : String) : Option Decimal :=
  let cs := s.toList
  let signBody : Bool × List Char :=
    match cs with
    | '-' :: rest => (true, rest)
    | '+' :: rest => (false, rest)
    | _ => (false, cs)
  let neg := signBody.1
  match signBody.2.splitOn '.' with
  | [ip] =>
    if ip.isEmpty then none
    else (digitsVal ip).map fun v =>
      ⟨if neg then -(v : Int) else (v : Int), 0⟩
  | [ip, fp] =>
    if ip.isEmpty && fp.isEmpty then none
    else
      match digitsVal ip, digitsVal fp with
      | some i, some f =>
        let m : Nat := i * 10 ^ fp.length + f
        some ⟨if neg then -(m : Int) else (m : Int), fp.length⟩
      | _, _ => none
  | _ => none

/-- Model of `BigDecimal`'s `Display`/`to_string`: the mantissa printed with
`scale` fractional digits. -/
def Decimal.toRustString (d : Decimal) : String :=
  let sign := if d.mantissa < 0 then "-" else ""
  let a := d.mantissa.natAbs
  if d.scale = 0 then sign ++ toString a
  else
    let ip := a / 10 ^ d.scale
    let fp := a % 10 ^ d.scale
    let fpStr := toString fp
    let pad := String.mk (List.replicate (d.scale - fpStr.length) '0')
    sign ++ toString ip ++ "." ++ pad ++ fpStr

/-- `BigDecimal::from(0)`. -/
def Decimal.zero : Decimal := ⟨0, 0⟩

/-- `BigDecimal::from(n)` for an `i32` count. -/
def Decimal.ofInt (n : Int) : Decimal := ⟨n, 0⟩

/-- Modelled from the spec: `ONDC_TTL`, the default instantaneous TTL
(`src/constants.rs` is not part of the provided sources; only equality with
request TTLs matters to the claims). -/
def ONDC_TTL : String := "PT30S"

/-- `OrderType` from `src/routes/order/schemas.rs`. -/
inductive OrderType where
  | PurchaseOrder
  | SaleOrder
deriving DecidableEq, Repr

/-- `CommerceStatusType` from `src/routes/order/schemas.rs`. -/
inductive CommerceStatusType where
  | QuoteRequested
  | QuoteAccepted
  | QuoteRejected
  | Initialized
  | Created
  | Accepted
  | InProgress
  | Completed
  | Cancelled
deriving DecidableEq, Repr

/-- `CurrencyType` (module `src/schemas.rs` is not under the provided
sources; the adapter only copies currency values and defaults to `Inr`). -/
inductive CurrencyType where
  | Inr
  | Usd
deriving DecidableEq, Repr

/-- `CountryCode` modelled by its wire string. -/
def CountryCode := String
deriving instance DecidableEq, Repr for CountryCode

/-- `ONDCNetworkType` (participant role). -/
inductive ONDCNetworkType where
  | Bap
  | Bpp
deriving DecidableEq, Repr

/-- `ONDCTagType` (`descriptor.code` of a tag group); the ONDC schemas module
is not under the provided sources, the constructors are those used by
`src/routes/order/utils.rs` and `src/routes/ondc/utils.rs`. -/
inductive ONDCTagType where
  | BuyerId
  | BapTerms
  | BppTerms
  | BuyerTerms
  | BPPPayment
  | DeliveryTerms
deriving DecidableEq, Repr

/-- `ONDCTagItemCode`: wire strings produced by its `Display`
implementation, as consumed by `get_tag_value_from_list` call sites. -/
inductive ONDCTagItemCode where
  | MaxLiability
  | MaxLiabilityCap
  | MandatoryArbitration
  | CourtJurisdiction
  | DelayInterest
  | ItemReq
  | PackagingsReq
  | Ttl
  | Dsa
  | Signature
  | IncoTerms
  | NamedPlaceOfDelivery
deriving DecidableEq, Repr

/-- `ONDCTagItemCode::to_string()`. -/
def ONDCTagItemCode.toWire : ONDCTagItemCode → String
  | .MaxLiability => "max_liability"
  | .MaxLiabilityCap => "max_liability_cap"
  | .MandatoryArbitration => "mandatory_arbitration"
  | .CourtJurisdiction => "court_jurisdiction"
  | .DelayInterest => "delay_interest"
  | .ItemReq => "item_req"
  | .PackagingsReq => "packagings_req"
  | .Ttl => "ttl"
  | .Dsa => "dsa"
  | .Signature => "signature"
  | .IncoTerms => "inco_terms"
  | .NamedPlaceOfDelivery => "named_place_of_delivery"

/-- Modelled from the spec: an `ONDCTag` is a tag group with a descriptor
code and a list of `(item code, value)` entries (the defining schemas module
is absent from the provided sources; the spec describes tag lookups as
key-to-value pattern matches). -/
structure ONDCTag where
  descriptorCode : ONDCTagType
  list : List (String × String)
deriving DecidableEq, Repr

/-- Modelled from the spec: `TagTrait::get_tag_value` returns the value of
the first entry of the tag whose item code matches. -/
def ONDCTag.getTagValue (tag : ONDCTag) (itemCode : String) : Option String :=
  (tag.list.find? fun e => e.1 = itemCode).map Prod.snd

/-- `get_tag_value_from_list` from `src/routes/ondc/utils.rs` (lines
1666-1677): filter the tags by descriptor code, flat-map `get_tag_value`
and take the first hit. -/
def getTagValueFromList (tags : List ONDCTag) (tagType : ONDCTagType)
    (itemCode : String) : Option String :=
  ((tags.filter fun tag => tag.descriptorCode = tagType).filterMap
    fun tag => tag.getTagValue itemCode).head?

/-- `BPPTermsModel` (record persisted into `buyer_commerce_data.bpp_terms`). -/
structure BPPTermsModel where
  max_liability : String
  max_liability_cap : String
  mandatory_arbitration : Bool
  court_jurisdiction : String
  delay_interest : String
deriving DecidableEq, Repr

/-- `get_bpp_term_model_from_tag` from `src/routes/order/utils.rs` (lines
1483-1529).  Note the source computes `mandatory_arbitration` as
`get_tag_value_from_list(..).unwrap_or_default() == "false"`. -/
def getBppTermModelFromTag (tags : List ONDCTag) : BPPTermsModel :=
  let maxLiability :=
    (getTagValueFromList tags .BppTerms ONDCTagItemCode.MaxLiability.toWire).getD ""
  let maxLiabilityCap :=
    (getTagValueFromList tags .BppTerms ONDCTagItemCode.MaxLiabilityCap.toWire).getD ""
  let mandatoryArbitration :=
    (getTagValueFromList tags .BppTerms ONDCTagItemCode.MandatoryArbitration.toWire).getD ""
      = "false"
  let courtJurisdiction :=
    (getTagValueFromList tags .BppTerms ONDCTagItemCode.CourtJurisdiction.toWire).getD ""
  let delayInterest :=
    (getTagValueFromList tags .BppTerms ONDCTagItemCode.DelayInterest.toWire).getD ""
  { max_liability := maxLiability
    max_liability_cap := maxLiabilityCap
    mandatory_arbitration := mandatoryArbitration
    court_jurisdiction := courtJurisdiction
    delay_interest := delayInterest }

theorem decimal_fromStr_example : Decimal.fromStr "1200.00" = some ⟨120000, 2⟩ := by
  decide

theorem decimal_fromStr_reject : Decimal.fromStr "abc" = none := by
  decide

/-- `PaymentType` from the product schemas (module absent from the provided
sources); values are only copied by the embedded code. -/
inductive PaymentType where
  | PrePaid
  | OnFulfillment
  | Credit
deriving DecidableEq, Repr

/-- `FeeType` (buyer app finder fee type). -/
inductive FeeType where
  | Percent
  | Amount
deriving DecidableEq, Repr

/-- `SettlementBasis`. -/
inductive SettlementBasis where
  | Delivery
  | Shipment
  | ReturnWindowExpiry
deriving DecidableEq, Repr

/-- `FulfillmentType` from the product schemas. -/
inductive FulfillmentType where
  | Delivery
  | SelfPickup
deriving DecidableEq, Repr

/-- `ONDCFulfillmentCategoryType` (on_select fulfillment category). -/
inductive ONDCFulfillmentCategoryType where
  | StandardDelivery
  | ExpressDelivery
  | SelfPickup
deriving DecidableEq, Repr

/-- `FulfillmentCategoryType` (persisted category column). -/
inductive FulfillmentCategoryType where
  | StandardDelivery
  | ExpressDelivery
  | SelfPickup
deriving DecidableEq, Repr

/-- `ONDCFulfillmentCategoryType::get_category_type()` (schemas module
absent; the constructors correspond one to one). -/
def ONDCFulfillmentCategoryType.getCategoryType :
    ONDCFulfillmentCategoryType → FulfillmentCategoryType
  | .StandardDelivery => .StandardDelivery
  | .ExpressDelivery => .ExpressDelivery
  | .SelfPickup => .SelfPickup

/-- `ServiceableType`. -/
inductive ServiceableType where
  | Serviceable
  | NonServiceable
deriving DecidableEq, Repr

/-- `ONDCFulfillmentStopType`. -/
inductive ONDCFulfillmentStopType where
  | Start
  | End
deriving DecidableEq, Repr

/-- `ONDCSelectFulfillmentLocation` (fields read by the persistence code). -/
structure ONDCSelectFulfillmentLocation where
  gps : String
  area_code : Option String
  address : Option String
  cityName : String
  countryCode : CountryCode
  stateName : String
deriving DecidableEq, Repr

/-- `ONDCContact`. -/
structure ONDCContact where
  phone : String
  email : Option String
deriving DecidableEq, Repr

/-- A stop of an outbound select fulfillment (`stops` entries). -/
structure ONDCStop where
  location : ONDCSelectFulfillmentLocation
  contact : ONDCContact
deriving DecidableEq, Repr

/-- `ONDCOrderFulfillmentEnd` (typed stop of an on_select fulfillment). -/
structure ONDCOrderFulfillmentEnd where
  stopType : ONDCFulfillmentStopType
  location : ONDCSelectFulfillmentLocation
  contact : ONDCContact
deriving DecidableEq, Repr

/-- `DropOffLocationModel`. -/
structure DropOffLocationModel where
  gps : String
  area_code : Option String
  address : Option String
  city : String
  country : CountryCode
  state : String
deriving DecidableEq, Repr

/-- `DropOffContactModel`. -/
structure DropOffContactModel where
  mobile_no : String
  email : Option String
deriving DecidableEq, Repr

/-- `DropOffDataModel`. -/
structure DropOffDataModel where
  location : DropOffLocationModel
  contact : DropOffContactModel
deriving DecidableEq, Repr

/-- `PickUpDataModel`. -/
structure PickUpDataModel where
  location : DropOffLocationModel
  contact : DropOffContactModel
deriving DecidableEq, Repr

/-- An outbound select-message fulfillment as read back by the on_select
persistence path (`stops` and `tags` are the only fields it uses). -/
structure ONDCSelectFulfillmentMsg where
  stops : Option (List ONDCStop)
  tags : Option (List ONDCTag)
deriving DecidableEq, Repr

/-- `ONDCOnSelectFulfillment` (fields read by `save_on_select_fulfillment`;
`servicable_status` stands for `state.descriptor.code.get_servicable_type()`
whose defining schemas module is absent). -/
structure ONDCOnSelectFulfillment where
  id : String
  category : ONDCFulfillmentCategoryType
  tat : String
  provider_name : Option String
  servicable_status : ServiceableType
  tracking : Bool
  stops : Option (List ONDCOrderFulfillmentEnd)
deriving DecidableEq, Repr

/-- `create_drop_off_from_ondc_select_fulfullment` from
`src/routes/order/utils.rs` (lines 441-465).  The source indexes
`fulfillment[0]` and `stops[0]`; the outer `none` models those panics. -/
def createDropOffFromOndcSelectFulfillment
    (fulfillments : List ONDCSelectFulfillmentMsg) :
    Option (Option DropOffDataModel) :=
  match fulfillments.head? with
  | none => none
  | some f =>
    match f.stops with
    | none => some none
    | some stops =>
      match stops.head? with
      | none => none
      | some stop =>
        some (some
          { location :=
              { gps := stop.location.gps
                area_code := stop.location.area_code
                address := stop.location.address
                city := stop.location.cityName
                country := stop.location.countryCode
                state := stop.location.stateName }
            contact :=
              { mobile_no := stop.contact.phone
                email := stop.contact.email } })

/-- `create_pick_off_from_ondc_select_fulfillment` from
`src/routes/order/utils.rs` (lines 467-494): the first `Start`-typed stop,
when any. -/
def createPickOffFromOndcSelectFulfillment
    (ends : Option (List ONDCOrderFulfillmentEnd)) : Option PickUpDataModel :=
  match ends with
  | none => none
  | some es =>
    (es.find? fun e => e.stopType = ONDCFulfillmentStopType.Start).map fun e =>
      { location :=
          { gps := e.location.gps
            area_code := e.location.area_code
            address := e.location.address
            city := e.location.cityName
            country := e.location.countryCode
            state := e.location.stateName }
        contact :=
          { mobile_no := e.contact.phone
            email := e.contact.email } }

/-- `BreakupTitleType`. -/
inductive BreakupTitleType where
  | Item
  | Tax
  | Discount
  | Packing
  | Delivery
  | Misc
deriving DecidableEq, Repr

/-- `ONDCAmount` (a currency and a decimal string). -/
structure ONDCAmount where
  currency : CurrencyType
  value : String
deriving DecidableEq, Repr

/-- `ONDCBreakupItemInfo`. -/
structure ONDCBreakupItemInfo where
  price : ONDCAmount
deriving DecidableEq, Repr

/-- `ONDCQuantityCountInt`. -/
structure ONDCQuantityCountInt where
  count : Int
deriving DecidableEq, Repr

/-- `ONDCBreakUp` (a quote breakup line as read by the persistence code). -/
structure ONDCBreakUp where
  title_type : BreakupTitleType
  item_id : Option String
  price : ONDCAmount
  item : Option ONDCBreakupItemInfo
  quantity : Option ONDCQuantityCountInt
deriving DecidableEq, Repr

/-- `ONDCQuote` of an on_select order. -/
structure ONDCQuote where
  price : ONDCAmount
  breakup : List ONDCBreakUp
deriving DecidableEq, Repr

/-- `ONDCQuantitySelect`. -/
structure ONDCQuantitySelect where
  selectedCount : Int
deriving DecidableEq, Repr

/-- An on_select order item (fields read by `save_order_on_select_items`). -/
structure ONDCOnSelectItem where
  id : String
  location_ids : List String
  fulfillment_ids : List String
  quantity : ONDCQuantitySelect
  tags : Option (List ONDCTag)
deriving DecidableEq, Repr

/-- `ONDCOnSelectPayment`: `collected_by` plus `r#type.get_payment()`. -/
structure ONDCOnSelectPayment where
  collected_by : ONDCNetworkType
  paymentType : PaymentType
deriving DecidableEq, Repr

/-- Context of the stored outbound select request (fields the on_select
persistence path reads). -/
structure ONDCSelectContext where
  transaction_id : Nat
  timestamp : Nat
  ttl : String
  cityCode : String
  countryCode : CountryCode
deriving DecidableEq, Repr

/-- The stored outbound select request, trimmed to the fields read back by
the on_select persistence path. -/
structure ONDCSelectRequestM where
  context : ONDCSelectContext
  fulfillments : List ONDCSelectFulfillmentMsg
deriving DecidableEq, Repr

/-- Context of an inbound on_select callback (fields read by the
persistence path; `domainCategory` stands for
`context.domain.get_category_domain()`). -/
structure ONDCOnSelectContext where
  transaction_id : Nat
  timestamp : Nat
  bap_id : String
  bap_uri : String
  bpp_id : Option String
  bpp_uri : Option String
  domainCategory : String
deriving DecidableEq, Repr

/-- The order object of an inbound on_select callback. -/
structure ONDCOnSelectOrder where
  providerId : String
  items : List ONDCOnSelectItem
  payments : List ONDCOnSelectPayment
  fulfillments : List ONDCOnSelectFulfillment
  quote : ONDCQuote
deriving DecidableEq, Repr

/-- `ONDCOnSelectRequest`: context, order message and optional top-level
error object (modelled by its message string). -/
structure ONDCOnSelectRequest where
  context : ONDCOnSelectContext
  order : ONDCOnSelectOrder
  error : Option String
deriving DecidableEq, Repr

/-- `UserAccount` (only its id is persisted by the embedded paths). -/
structure UserAccount where
  id : Nat
deriving DecidableEq, Repr

/-- `BusinessAccount` fields used by order persistence (the richer
search-tag fields are modelled separately for the envelope builder). -/
structure BusinessAccountCore where
  id : Nat
  company_name : String
deriving DecidableEq, Repr

/-- `OrderType` computation of `save_buyer_order_data_on_select`
(`src/routes/order/utils.rs` lines 597-601): `SaleOrder` unless the stored
select context TTL differs from `ONDC_TTL`. -/
def onSelectOrderType (selectTtl : String) : OrderType :=
  if selectTtl ≠ ONDC_TTL then OrderType.PurchaseOrder else OrderType.SaleOrder

/-- Status computation of `save_buyer_order_data_on_select`
(`src/routes/order/utils.rs` lines 602-606). -/
def onSelectOrderStatus (error : Option String) : CommerceStatusType :=
  if error.isNone then CommerceStatusType.QuoteAccepted
  else CommerceStatusType.QuoteRejected

/-- A `buyer_commerce_data` row as inserted by the embedded paths
(randomly generated UUID primary keys are not modelled). -/
structure BuyerCommerceDataRow where
  external_urn : Nat
  record_type : OrderType
  record_status : CommerceStatusType
  domain_category_code : String
  buyer_id : Nat
  seller_id : String
  seller_name : String
  buyer_name : String
  created_on : Nat
  created_by : Nat
  bpp_id : String
  bpp_uri : String
  bap_id : String
  bap_uri : String
  is_import : Bool
  quote_ttl : String
  updated_on : Option Nat
  currency_code : Option CurrencyType
  grand_total : Option Decimal
  city_code : String
  country_code : CountryCode
deriving DecidableEq, Repr

/-- `save_buyer_order_data_on_select` from `src/routes/order/utils.rs`
(lines 583-651), reduced to the row it inserts.  `none` models the panics:
the `BigDecimal::from_str(quote.price.value).unwrap()` on line 592-593 and
the `fulfillments[0]` index on line 595. -/
def saveBuyerOrderDataOnSelectRow (sel : ONDCSelectRequestM)
    (onSel : ONDCOnSelectRequest) (user : UserAccount)
    (business : BusinessAccountCore) (providerName : String) :
    Option BuyerCommerceDataRow :=
  match Decimal.fromStr onSel.order.quote.price.value with
  | none => none
  | some grandTotal =>
    match sel.fulfillments.head? with
    | none => none
    | some f0 =>
      let isImport := f0.tags.isSome
      let orderType := onSelectOrderType sel.context.ttl
      let createdOn :=
        if sel.context.ttl ≠ ONDC_TTL then sel.context.timestamp
        else onSel.context.timestamp
      some
        { external_urn := onSel.context.transaction_id
          record_type := orderType
          record_status := onSelectOrderStatus onSel.error
          domain_category_code := onSel.context.domainCategory
          buyer_id := business.id
          seller_id := onSel.order.providerId
          seller_name := providerName
          buyer_name := business.company_name
          created_on := createdOn
          created_by := user.id
          bpp_id := onSel.context.bpp_id.getD ""
          bpp_uri := onSel.context.bpp_uri.getD ""
          bap_id := onSel.context.bap_id
          bap_uri := onSel.context.bap_uri
          is_import := isImport
          quote_ttl := sel.context.ttl
          updated_on := some sel.context.timestamp
          currency_code := some onSel.order.quote.price.currency
          grand_total := some grandTotal
          city_code := sel.context.cityCode
          country_code := sel.context.countryCode }

/-- `ONDCDomain` / category-domain strings are only compared and copied;
modelled by `String` fields where they occur. -/
structure LookupData where
  br_id : String
  subscriber_id : String
  signing_public_key : String
  subscriber_url : String
  encr_public_key : String
  uk_id : String
  domain : String
  npType : ONDCNetworkType
deriving DecidableEq, Repr

/-- `ONDCPaymentSettlementCounterparty`. -/
inductive SettlementCounterparty where
  | BuyerApp
  | SellerApp
  | Buyer
deriving DecidableEq, Repr

/-- Settlement phase (wire enum, values only copied). -/
inductive SettlementPhase where
  | SaleAmount
  | WithholdingAmount
  | Refund
deriving DecidableEq, Repr

/-- Settlement type (wire enum, values only copied). -/
inductive SettlementType where
  | Neft
  | Rtgs
  | Upi
deriving DecidableEq, Repr

/-- `ONDCPaymentSettlementDetail` (wire-side settlement detail). -/
structure ONDCPaymentSettlementDetail where
  settlement_counterparty : SettlementCounterparty
  settlement_phase : SettlementPhase
  settlement_type : SettlementType
  settlement_bank_account_no : String
  settlement_ifsc_code : String
  beneficiary_name : String
  bank_name : String
deriving DecidableEq, Repr

/-- `PaymentSettlementDetailModel` (persisted settlement detail); the
`to_payment_settlement_detail` / `get_ondc_settlement_*` conversions copy
field by field between the wire and model shapes. -/
structure PaymentSettlementDetailModel where
  settlement_counterparty : SettlementCounterparty
  settlement_phase : SettlementPhase
  settlement_type : SettlementType
  settlement_bank_account_no : String
  settlement_ifsc_code : String
  beneficiary_name : String
  bank_name : String
deriving DecidableEq, Repr

/-- `ONDCPaymentSettlementDetail::to_payment_settlement_detail()`. -/
def ONDCPaymentSettlementDetail.toModel
    (d : ONDCPaymentSettlementDetail) : PaymentSettlementDetailModel :=
  { settlement_counterparty := d.settlement_counterparty
    settlement_phase := d.settlement_phase
    settlement_type := d.settlement_type
    settlement_bank_account_no := d.settlement_bank_account_no
    settlement_ifsc_code := d.settlement_ifsc_code
    beneficiary_name := d.beneficiary_name
    bank_name := d.bank_name }

/-- The wire view of a persisted settlement detail (conversions
`get_ondc_settlement_counterparty/phase/type` compose to this copy). -/
def PaymentSettlementDetailModel.toWire
    (d : PaymentSettlementDetailModel) : ONDCPaymentSettlementDetail :=
  { settlement_counterparty := d.settlement_counterparty
    settlement_phase := d.settlement_phase
    settlement_type := d.settlement_type
    settlement_bank_account_no := d.settlement_bank_account_no
    settlement_ifsc_code := d.settlement_ifsc_code
    beneficiary_name := d.beneficiary_name
    bank_name := d.bank_name }

/-- `RegisteredNetworkParticipant` (the caller's BAP registration), trimmed
to the fields the embedded code reads. -/
structure RegisteredNetworkParticipant where
  subscriber_id : String
  subscriber_uri : String
  fee_type : FeeType
  fee_value : Decimal
  settlement_phase : SettlementPhase
  settlement_type : SettlementType
  bank_account_no : String
  bank_ifsc_code : String
  bank_beneficiary_name : String
  bank_name : String
deriving DecidableEq, Repr

/-- City and country codes of an `OrderSelectRequest` fulfillment location
(the only location fields `save_rfq_order` reads). -/
structure SelectFulfillmentLocationCodes where
  cityCode : String
  countryCode : CountryCode
deriving DecidableEq, Repr

/-- An `OrderSelectFulfillment` trimmed to what `save_rfq_order` reads. -/
structure OrderSelectFulfillmentM where
  location : SelectFulfillmentLocationCodes
deriving DecidableEq, Repr

/-- `OrderSelectRequest` from `src/routes/order/schemas.rs` (lines
170-186), trimmed to the fields read by `save_rfq_order`.  Note
`order_type` and `ttl` are independent fields supplied by the client. -/
structure OrderSelectRequestM where
  transaction_id : Nat
  domain_category_code : String
  provider_id : String
  ttl : String
  order_type : OrderType
  bpp_id : String
  is_import : Bool
  fulfillments : List OrderSelectFulfillmentM
deriving DecidableEq, Repr

/-- `save_rfq_order` from `src/routes/order/utils.rs` (lines 77-124),
reduced to the row it inserts (status is hard-wired `QuoteRequested` and
`record_type` is the request's `order_type` field).  `none` models the
`fulfillments[0]` panic on an empty fulfillment list. -/
def saveRfqOrderRow (req : OrderSelectRequestM) (user : UserAccount)
    (business : BusinessAccountCore) (bppDetail : LookupData)
    (bapDetail : RegisteredNetworkParticipant) (providerName : String)
    (now : Nat) : Option BuyerCommerceDataRow :=
  match req.fulfillments.head? with
  | none => none
  | some f0 =>
    some
      { external_urn := req.transaction_id
        record_type := req.order_type
        record_status := CommerceStatusType.QuoteRequested
        domain_category_code := req.domain_category_code
        buyer_id := business.id
        seller_id := req.provider_id
        seller_name := providerName
        buyer_name := business.company_name
        created_on := now
        created_by := user.id
        bpp_id := req.bpp_id
        bpp_uri := bppDetail.subscriber_url
        bap_id := bapDetail.subscriber_id
        bap_uri := bapDetail.subscriber_uri
        is_import := req.is_import
        quote_ttl := req.ttl
        updated_on := none
        currency_code := none
        grand_total := none
        city_code := f0.location.cityCode
        country_code := f0.location.countryCode }

/-- `ONDCOnInitPayment` (fields read by `initialize_payment_on_init`;
`paymentType` stands for `r#type.get_payment()`). -/
structure ONDCOnInitPayment where
  collected_by : ONDCNetworkType
  paymentType : PaymentType
  buyer_app_finder_fee_type : FeeType
  buyer_app_finder_fee_amount : String
  settlement_window : String
  withholding_amount : String
  uri : Option String
  settlement_basis : SettlementBasis
  tags : Option (List ONDCTag)
  settlement_details : Option (List ONDCPaymentSettlementDetail)
deriving DecidableEq, Repr

/-- A `buyer_commerce_payment` row as inserted by the on_init path. -/
structure BuyerCommercePaymentInitRow where
  collected_by : ONDCNetworkType
  payment_type : PaymentType
  buyer_fee_type : FeeType
  buyer_fee_amount : Decimal
  settlement_window : String
  withholding_amount : Decimal
  seller_payment_uri : Option String
  settlement_basis : SettlementBasis
  seller_payment_ttl : Option String
  seller_payment_dsa : Option String
  seller_payment_signature : Option String
  settlement_details : Option (List PaymentSettlementDetailModel)
deriving DecidableEq, Repr

/-- Row computation of `initialize_payment_on_init` from
`src/routes/order/utils.rs` (lines 1370-1468) for one payment.  `none`
models the panics `BigDecimal::from_str(buyer_app_finder_fee_amount)
.unwrap()` and `BigDecimal::from_str(withholding_amount).unwrap()` on
lines 1396-1399. -/
def initPaymentOnInitRow (payment : ONDCOnInitPayment) :
    Option BuyerCommercePaymentInitRow :=
  match Decimal.fromStr payment.buyer_app_finder_fee_amount with
  | none => none
  | some fee =>
    match Decimal.fromStr payment.withholding_amount with
    | none => none
    | some withholding =>
      some
        { collected_by := payment.collected_by
          payment_type := payment.paymentType
          buyer_fee_type := payment.buyer_app_finder_fee_type
          buyer_fee_amount := fee
          settlement_window := payment.settlement_window
          withholding_amount := withholding
          seller_payment_uri := payment.uri
          settlement_basis := payment.settlement_basis
          seller_payment_ttl := payment.tags.map fun tag =>
            (getTagValueFromList tag .BPPPayment ONDCTagItemCode.Ttl.toWire).getD ""
          seller_payment_dsa := payment.tags.map fun tag =>
            (getTagValueFromList tag .BPPPayment ONDCTagItemCode.Dsa.toWire).getD ""
          seller_payment_signature := payment.tags.map fun tag =>
            (getTagValueFromList tag .BPPPayment ONDCTagItemCode.Signature.toWire).getD ""
          settlement_details :=
            payment.settlement_details.map fun details =>
              details.map ONDCPaymentSettlementDetail.toModel }

/-- `initialize_payment_on_init` over all payments of the callback: the
loop panics as soon as one payment's decimal fails to parse. -/
def initPaymentOnInitRows (payments : List ONDCOnInitPayment) :
    Option (List BuyerCommercePaymentInitRow) :=
  payments.mapM initPaymentOnInitRow

/-- `ONDCBilling` (fields read by
`convert_ondc_billing_to_model_billing`: name, address, state.name,
city.name, tax_id, email, phone). -/
structure ONDCBilling where
  name : String
  address : String
  stateName : String
  cityName : String
  tax_id : String
  email : Option String
  phone : String
deriving DecidableEq, Repr

/-- `OrderBillingModel` (persisted billing blob). -/
structure OrderBillingModel where
  name : String
  address : String
  state : String
  city : String
  tax_id : String
  email : Option String
  phone : String
deriving DecidableEq, Repr

/-- `convert_ondc_billing_to_model_billing` from
`src/routes/order/utils.rs` (lines 1471-1481). -/
def convertOndcBillingToModelBilling (billing : ONDCBilling) : OrderBillingModel :=
  { name := billing.name
    address := billing.address
    state := billing.stateName
    city := billing.cityName
    tax_id := billing.tax_id
    email := billing.email
    phone := billing.phone }

/-- `CancellationFeeType`. -/
inductive CancellationFeeType where
  | Percent
  | Amount
deriving DecidableEq, Repr

/-- `OrderCancellationFeeModel`. -/
structure OrderCancellationFeeModel where
  feeType : CancellationFeeType
  val : Decimal
deriving DecidableEq, Repr

/-- `ONDCOrderCancellationTerm` trimmed to the fields
`get_cancel_term_model_from_ondc_cancel_term` reads
(`fulfillmentStateCode` stands for
`fulfillment_state.descriptor.code.get_fulfillment_state()`, and the fee
projections `get_type`/`get_amount`, whose defining schemas module is
absent, are carried as fields). -/
structure ONDCOrderCancellationTermM where
  fulfillmentStateCode : String
  reason_required : Bool
  feeType : CancellationFeeType
  feeAmount : Decimal
deriving DecidableEq, Repr

/-- `OrderCancellationTermModel`. -/
structure OrderCancellationTermModel where
  fulfillment_state : String
  reason_required : Bool
  cancellation_fee : OrderCancellationFeeModel
deriving DecidableEq, Repr

/-- `get_cancel_term_model_from_ondc_cancel_term` from
`src/routes/order/utils.rs` (lines 1531-1550). -/
def getCancelTermModelFromOndcCancelTerm
    (terms : List ONDCOrderCancellationTermM) : List OrderCancellationTermModel :=
  terms.map fun t =>
    { fulfillment_state := t.fulfillmentStateCode
      reason_required := t.reason_required
      cancellation_fee := { feeType := t.feeType, val := t.feeAmount } }

/-- The order object of an inbound on_init callback (fields read by the
on_init persistence path). -/
structure ONDCOnInitOrder where
  billing : ONDCBilling
  tags : List ONDCTag
  cancellation_terms : List ONDCOrderCancellationTermM
  payments : List ONDCOnInitPayment
deriving DecidableEq, Repr

/-- Context of an inbound on_init callback. -/
structure ONDCOnInitContext where
  transaction_id : Nat
deriving DecidableEq, Repr

/-- `ONDCOnInitRequest`. -/
structure ONDCOnInitRequest where
  context : ONDCOnInitContext
  order : ONDCOnInitOrder
deriving DecidableEq, Repr

/-- The nullable blob columns of `buyer_commerce_data` touched by the
on_init update, carried next to a header row. -/
structure BuyerCommerceHeaderState where
  row : BuyerCommerceDataRow
  billing : Option OrderBillingModel
  bpp_terms : Option BPPTermsModel
  cancellation_terms : Option (List OrderCancellationTermModel)
deriving DecidableEq, Repr

/-- `update_buyer_commerce_in_on_init` from `src/routes/order/utils.rs`
(lines 1552-1580): set billing, bpp_terms, cancellation_terms and status
`Initialized` on every header row whose `external_urn` matches the
callback's transaction id. -/
def updateBuyerCommerceInOnInit (onInit : ONDCOnInitRequest)
    (header : BuyerCommerceHeaderState) : BuyerCommerceHeaderState :=
  if header.row.external_urn = onInit.context.transaction_id then
    { header with
      billing := some (convertOndcBillingToModelBilling onInit.order.billing)
      bpp_terms := some (getBppTermModelFromTag onInit.order.tags)
      cancellation_terms :=
        some (getCancelTermModelFromOndcCancelTerm onInit.order.cancellation_terms)
      row := { header.row with record_status := CommerceStatusType.Initialized } }
  else header

/-- A throwaway row used only as a `getD` fallback in concrete fixtures. -/
def dummyRow : BuyerCommerceDataRow :=
  { external_urn := 0
    record_type := OrderType.SaleOrder
    record_status := CommerceStatusType.QuoteRequested
    domain_category_code := ""
    buyer_id := 0
    seller_id := ""
    seller_name := ""
    buyer_name := ""
    created_on := 0
    created_by := 0
    bpp_id := ""
    bpp_uri := ""
    bap_id := ""
    bap_uri := ""
    is_import := false
    quote_ttl := ""
    updated_on := none
    currency_code := none
    grand_total := none
    city_code := ""
    country_code := ("" : String) }

/-- Fixture: a user account. -/
def userFix : UserAccount := ⟨11⟩

/-- Fixture: a business account. -/
def bizFix : BusinessAccountCore := ⟨22, "Acme Traders"⟩

/-- Fixture: a stop of the stored select fulfillment. -/
def stopFix : ONDCStop :=
  { location :=
      { gps := "12.90,77.60"
        area_code := some "560001"
        address := some "MG Road"
        cityName := "Bengaluru"
        countryCode := ("IND" : String)
        stateName := "Karnataka" }
    contact := { phone := "+911234567890", email := none } }

/-- Fixture: a stored outbound select request with a purchase-order TTL. -/
def selFixA : ONDCSelectRequestM :=
  { context :=
      { transaction_id := 5
        timestamp := 100
        ttl := "P1D"
        cityCode := "std:080"
        countryCode := ("IND" : String) }
    fulfillments := [{ stops := some [stopFix], tags := none }] }

/-- Fixture: an inbound on_select callback with a parsable quote value and
no error object. -/
def onSelFixA : ONDCOnSelectRequest :=
  { context :=
      { transaction_id := 5
        timestamp := 200
        bap_id := "bap.example.com"
        bap_uri := "https://bap.example.com"
        bpp_id := some "bpp.example.com"
        bpp_uri := some "https://bpp.example.com"
        domainCategory := "RET10" }
    order :=
      { providerId := "P1"
        items := []
        payments := []
        fulfillments := []
        quote := { price := { currency := CurrencyType.Inr, value := "1200.00" }, breakup := [] } }
    error := none }

/-- Fixture: the same callback with a quote value that is not a decimal. -/
def onSelFixBad : ONDCOnSelectRequest :=
  { onSelFixA with
    order := { onSelFixA.order with
      quote := { price := { currency := CurrencyType.Inr, value := "abc" }, breakup := [] } } }

/-- The commerce header row persisted for the `onSelFixA` callback. -/
def rowC5 : BuyerCommerceDataRow :=
  (saveBuyerOrderDataOnSelectRow selFixA onSelFixA userFix bizFix "Prov").getD dummyRow

/-- Claim C5: for every inbound on_select response, `apply_quote` inserts
the commerce header with status `QuoteAccepted` if and only if the response
carries no top-level error object, and with `QuoteRejected` otherwise. -/
theorem on_select_status_accepted_iff_no_error (sel : ONDCSelectRequestM)
    (onSel : ONDCOnSelectRequest) (u : UserAccount) (b : BusinessAccountCore)
    (pn : String) (row : BuyerCommerceDataRow)
    (h : saveBuyerOrderDataOnSelectRow sel onSel u b pn = some row) :
    (row.record_status = CommerceStatusType.QuoteAccepted ↔ onSel.error = none)
      ∧ (row.record_status = CommerceStatusType.QuoteRejected ↔ onSel.error ≠ none) := by
  unfold saveBuyerOrderDataOnSelectRow at h
  split at h
  · exact absurd h (by simp)
  · split at h
    · exact absurd h (by simp)
    · rw [Option.some_inj] at h
      subst h
      cases he : onSel.error <;>
        simp [he, onSelectOrderStatus]

/-- Witness for C5 at the concrete fixture: the accepted status and, for
the error-carrying variant, the rejected status. -/
theorem on_select_status_accepted_iff_no_error_witness :
    rowC5.record_status = CommerceStatusType.QuoteAccepted :=
  ((on_select_status_accepted_iff_no_error selFixA onSelFixA userFix bizFix
    "Prov" rowC5 (by rfl)).1).mpr rfl

/-- Fixture: an on_init payment whose decimal fields parse. -/
def goodInitPayment : ONDCOnInitPayment :=
  { collected_by := ONDCNetworkType.Bap
    paymentType := PaymentType.PrePaid
    buyer_app_finder_fee_type := FeeType.Percent
    buyer_app_finder_fee_amount := "3.0"
    settlement_window := "P1D"
    withholding_amount := "0.0"
    uri := none
    settlement_basis := SettlementBasis.Delivery
    tags := none
    settlement_details := none }

/-- Fixture: an on_init payment whose finder-fee amount is not a decimal. -/
def badFeeInitPayment : ONDCOnInitPayment :=
  { goodInitPayment with buyer_app_finder_fee_amount := "xyz" }

/-- Fixture: an on_init payment whose withholding amount is not a decimal. -/
def badWithholdingInitPayment : ONDCOnInitPayment :=
  { goodInitPayment with withholding_amount := "NaN" }

/-- Claim C10: the inbound order transitions are not total: an on_select
response whose `quote.price.value` does not parse as a decimal makes
`save_buyer_order_data_on_select` panic (modelled `none`), and an on_init
payment whose `buyer_app_finder_fee_amount` or `withholding_amount` does
not parse makes `initialize_payment_on_init` panic likewise; the same
inputs with parsable decimals go through. -/
theorem inbound_transitions_panic_on_bad_decimals :
    saveBuyerOrderDataOnSelectRow selFixA onSelFixBad userFix bizFix "Prov" = none
      ∧ initPaymentOnInitRows [badFeeInitPayment] = none
      ∧ initPaymentOnInitRows [badWithholdingInitPayment] = none
      ∧ (saveBuyerOrderDataOnSelectRow selFixA onSelFixA userFix bizFix "Prov").isSome = true
      ∧ (initPaymentOnInitRows [goodInitPayment]).isSome = true := by
  refine ⟨by decide, by decide, by decide, by decide, by decide⟩

/-- Fixture: the S4-style BPP terms tag group, with
`mandatory_arbitration` carrying the string value `"false"`. -/
def s4BppTermsTag : ONDCTag :=
  { descriptorCode := ONDCTagType.BppTerms
    list :=
      [("max_liability", "2"),
       ("max_liability_cap", "10000"),
       ("mandatory_arbitration", "false"),
       ("court_jurisdiction", "Bengaluru"),
       ("delay_interest", "1000")] }

/-- Fixture: the S4-style billing block. -/
def s4Billing : ONDCBilling :=
  { name := "Acme"
    address := "MG Road"
    stateName := "Karnataka"
    cityName := "Bengaluru"
    tax_id := "29ABCDE1234F1Z5"
    email := some "a@b.c"
    phone := "+911234567890" }

/-- Fixture: an inbound on_init callback carrying the S4 billing and BPP
terms for transaction 5. -/
def onInitFixC4 : ONDCOnInitRequest :=
  { context := { transaction_id := 5 }
    order :=
      { billing := s4Billing
        tags := [s4BppTermsTag]
        cancellation_terms := []
        payments := [goodInitPayment] } }

/-- Fixture: the header state for transaction 5 before the on_init update. -/
def headerFixC4 : BuyerCommerceHeaderState :=
  { row := rowC5, billing := none, bpp_terms := none, cancellation_terms := none }

/-- Claim C4 (code evaluated at the failing input): `apply_on_init` stores
the billing and BPP-term tag values and sets status `Initialized`, but a
`mandatory_arbitration` tag value of `"false"` is stored as the boolean
`true`, because the source computes `value == "false"`
(`src/routes/order/utils.rs` lines 1500-1506). -/
theorem on_init_stores_bpp_terms_with_inverted_arbitration :
    (updateBuyerCommerceInOnInit onInitFixC4 headerFixC4).bpp_terms =
        some
          { max_liability := "2"
            max_liability_cap := "10000"
            mandatory_arbitration := true
            court_jurisdiction := "Bengaluru"
            delay_interest := "1000" }
      ∧ (updateBuyerCommerceInOnInit onInitFixC4 headerFixC4).billing =
        some
          { name := "Acme"
            address := "MG Road"
            state := "Karnataka"
            city := "Bengaluru"
            tax_id := "29ABCDE1234F1Z5"
            email := some "a@b.c"
            phone := "+911234567890" }
      ∧ (updateBuyerCommerceInOnInit onInitFixC4 headerFixC4).row.record_status =
        CommerceStatusType.Initialized := by
  refine ⟨by decide, by decide, by decide⟩

/-- Fixture: participant directory entry for the counterparty BPP. -/
def bppDetailFix : LookupData :=
  { br_id := "BR1"
    subscriber_id := "bpp.example.com"
    signing_public_key := "signkey"
    subscriber_url := "https://bpp.example.com"
    encr_public_key := "encrkey"
    uk_id := "UK1"
    domain := "ONDC:RET10"
    npType := ONDCNetworkType.Bpp }

/-- Fixture: the caller's registered BAP. -/
def bapDetailFix : RegisteredNetworkParticipant :=
  { subscriber_id := "bap.example.com"
    subscriber_uri := "https://bap.example.com"
    fee_type := FeeType.Percent
    fee_value := ⟨30, 1⟩
    settlement_phase := SettlementPhase.SaleAmount
    settlement_type := SettlementType.Neft
    bank_account_no := "00112233"
    bank_ifsc_code := "HDFC0000001"
    bank_beneficiary_name := "Acme BAP"
    bank_name := "HDFC" }

/-- Fixture: a select request whose client-supplied `order_type` is
`PurchaseOrder` while its `ttl` is the default `ONDC_TTL`. -/
def reqC7 : OrderSelectRequestM :=
  { transaction_id := 7
    domain_category_code := "RET10"
    provider_id := "P1"
    ttl := ONDC_TTL
    order_type := OrderType.PurchaseOrder
    bpp_id := "bpp.example.com"
    is_import := false
    fulfillments := [{ location := { cityCode := "std:080", countryCode := ("IND" : String) } }] }

/-- The draft header row persisted for `reqC7`. -/
def rfqRowC7 : BuyerCommerceDataRow :=
  (saveRfqOrderRow reqC7 userFix bizFix bppDetailFix bapDetailFix "Prov" 50).getD dummyRow

/-- Counterexample to claim C7 as stated: `draft_select` persists a header
whose `record_type` is `PurchaseOrder` although the originating select
request's TTL equals the default `ONDC_TTL`, because `save_rfq_order`
stores the request's `order_type` field verbatim. -/
theorem record_type_ttl_equivalence_fails_for_draft :
    saveRfqOrderRow reqC7 userFix bizFix bppDetailFix bapDetailFix "Prov" 50 =
        some rfqRowC7
      ∧ rfqRowC7.record_type = OrderType.PurchaseOrder
      ∧ reqC7.ttl = ONDC_TTL
      ∧ ¬(rfqRowC7.record_type = OrderType.PurchaseOrder ↔ reqC7.ttl ≠ ONDC_TTL) := by
  refine ⟨by decide, by decide, by decide, by decide⟩

/-- Claim C7 as amended: the aggregate rebuilt by `apply_quote` has
`record_type = PurchaseOrder` iff the stored select context TTL differs
from `ONDC_TTL`, while the draft inserted by `draft_select` carries the
request's `order_type` field verbatim, independent of the TTL. -/
theorem record_type_vs_ttl_amended :
    (∀ (sel : ONDCSelectRequestM) (onSel : ONDCOnSelectRequest)
      (u : UserAccount) (b : BusinessAccountCore) (pn : String)
      (row : BuyerCommerceDataRow),
      saveBuyerOrderDataOnSelectRow sel onSel u b pn = some row →
        (row.record_type = OrderType.PurchaseOrder ↔ sel.context.ttl ≠ ONDC_TTL))
    ∧ (∀ (req : OrderSelectRequestM) (u : UserAccount) (b : BusinessAccountCore)
      (bpp : LookupData) (bap : RegisteredNetworkParticipant) (pn : String)
      (now : Nat) (row : BuyerCommerceDataRow),
      saveRfqOrderRow req u b bpp bap pn now = some row →
        row.record_type = req.order_type) := by
  constructor
  · intro sel onSel u b pn row h
    unfold saveBuyerOrderDataOnSelectRow at h
    split at h
    · exact absurd h (by simp)
    · split at h
      · exact absurd h (by simp)
      · rw [Option.some_inj] at h
        subst h
        by_cases hc : sel.context.ttl = ONDC_TTL <;>
          simp [onSelectOrderType, hc]
  · intro req u b bpp bap pn now row h
    unfold saveRfqOrderRow at h
    split at h
    · exact absurd h (by simp)
    · rw [Option.some_inj] at h
      subst h
      rfl

/-- Witness for the amended C7 at the concrete fixtures. -/
theorem record_type_vs_ttl_amended_witness :
    (rowC5.record_type = OrderType.PurchaseOrder ↔ selFixA.context.ttl ≠ ONDC_TTL)
      ∧ rfqRowC7.record_type = reqC7.order_type :=
  ⟨record_type_vs_ttl_amended.1 selFixA onSelFixA userFix bizFix "Prov" rowC5 (by rfl),
   record_type_vs_ttl_amended.2 reqC7 userFix bizFix bppDetailFix bapDetailFix
     "Prov" 50 rfqRowC7 (by rfl)⟩

/-- `PaymentCollectedBy` (order schemas module absent from the provided
sources; constructors from its uses in `src/routes/ondc/utils.rs`). -/
inductive PaymentCollectedBy where
  | Bap
  | Bpp
deriving DecidableEq, Repr

/-- `PaymentCollectedBy::get_ondc_type()`. -/
def PaymentCollectedBy.getOndcType : PaymentCollectedBy → ONDCNetworkType
  | .Bap => ONDCNetworkType.Bap
  | .Bpp => ONDCNetworkType.Bpp

/-- `ONDCPaymentStatus`. -/
inductive ONDCPaymentStatus where
  | NotPaid
  | Paid
deriving DecidableEq, Repr

/-- A payment of the commerce aggregate (`CommercePayment`), trimmed to
the fields `get_ondc_confirm_request_payment` reads. -/
structure CommercePayment where
  payment_id : Option String
  collected_by : Option PaymentCollectedBy
  payment_type : PaymentType
  buyer_fee_type : Option FeeType
  buyer_fee_amount : Option String
  settlement_basis : Option SettlementBasis
  settlement_window : Option String
  withholding_amount : Option String
  settlement_details : Option (List PaymentSettlementDetailModel)
deriving DecidableEq, Repr

/-- The commerce aggregate (`Commerce`), trimmed to the fields
`get_ondc_confirm_request_payment` reads. -/
structure Commerce where
  payments : List CommercePayment
  currency_type : Option CurrencyType
  grand_total : Option Decimal
deriving DecidableEq, Repr

/-- An `ONDCOnConfirmPayment` as assembled for the confirm envelope
(`params` is flattened into `amount`, `currency`, `transaction_id`). -/
structure ONDCOnConfirmPayment where
  pid : Option String
  paymentType : PaymentType
  collected_by : ONDCNetworkType
  uri : Option String
  tags : Option (List ONDCTag)
  amount : String
  currency : CurrencyType
  transaction_id : Option String
  buyer_app_finder_fee_type : FeeType
  buyer_app_finder_fee_amount : String
  settlement_basis : SettlementBasis
  settlement_window : String
  withholding_amount : String
  settlement_details : Option (List ONDCPaymentSettlementDetail)
  status : ONDCPaymentStatus
deriving DecidableEq, Repr

/-- The settlement detail built from the caller's registered BAP bank
identity (`src/routes/ondc/utils.rs` lines 1688-1696). -/
def bapSettlementDetail (bap : RegisteredNetworkParticipant) :
    ONDCPaymentSettlementDetail :=
  { settlement_counterparty := SettlementCounterparty.BuyerApp
    settlement_phase := bap.settlement_phase
    settlement_type := bap.settlement_type
    settlement_bank_account_no := bap.bank_account_no
    settlement_ifsc_code := bap.bank_ifsc_code
    beneficiary_name := bap.bank_beneficiary_name
    bank_name := bap.bank_name }

/-- `get_ondc_confirm_request_payment` from `src/routes/ondc/utils.rs`
(lines 1679-1755): per payment, the settlement details are the BAP bank
identity when `collected_by == Some(Bpp)`, otherwise the stored per-payment
`settlement_details` (empty when absent). -/
def getOndcConfirmRequestPayment (order : Commerce)
    (bap : RegisteredNetworkParticipant) : List ONDCOnConfirmPayment :=
  let currency := order.currency_type.getD CurrencyType.Inr
  order.payments.map fun payment =>
    let settlementDetailObjs :=
      if payment.collected_by = some PaymentCollectedBy.Bpp then
        [bapSettlementDetail bap]
      else
        match payment.settlement_details with
        | some ds => ds.map PaymentSettlementDetailModel.toWire
        | none => []
    { pid := none
      paymentType := payment.payment_type
      collected_by := (payment.collected_by.getD PaymentCollectedBy.Bpp).getOndcType
      uri := none
      tags := none
      amount := (order.grand_total.getD Decimal.zero).toRustString
      currency := currency
      transaction_id :=
        (order.payments.find? fun p => p.payment_id.isSome).bind fun p => p.payment_id
      buyer_app_finder_fee_type := payment.buyer_fee_type.getD FeeType.Amount
      buyer_app_finder_fee_amount := payment.buyer_fee_amount.getD "0.00"
      settlement_basis := payment.settlement_basis.getD SettlementBasis.Delivery
      settlement_window := payment.settlement_window.getD "P1D"
      withholding_amount := payment.withholding_amount.getD "0.0"
      settlement_details := some settlementDetailObjs
      status := ONDCPaymentStatus.NotPaid }

/-- The confirm payment list has one entry per aggregate payment. -/
theorem getOndcConfirmRequestPayment_length (order : Commerce)
    (bap : RegisteredNetworkParticipant) :
    (getOndcConfirmRequestPayment order bap).length = order.payments.length := by
  simp [getOndcConfirmRequestPayment]

/-- Fixture: a seller-supplied settlement detail stored on a payment. -/
def sellerDetailFix : PaymentSettlementDetailModel :=
  { settlement_counterparty := SettlementCounterparty.SellerApp
    settlement_phase := SettlementPhase.SaleAmount
    settlement_type := SettlementType.Neft
    settlement_bank_account_no := "998877"
    settlement_ifsc_code := "SBIN0000001"
    beneficiary_name := "Seller Pvt Ltd"
    bank_name := "SBI" }

/-- Fixture: a payment collected by the BAP with stored settlement
details. -/
def paymentBapFix : CommercePayment :=
  { payment_id := none
    collected_by := some PaymentCollectedBy.Bap
    payment_type := PaymentType.PrePaid
    buyer_fee_type := some FeeType.Percent
    buyer_fee_amount := some "3.0"
    settlement_basis := some SettlementBasis.Delivery
    settlement_window := some "P1D"
    withholding_amount := some "0.0"
    settlement_details := some [sellerDetailFix] }

/-- Fixture: an aggregate whose only payment is `paymentBapFix`. -/
def orderC2 : Commerce :=
  { payments := [paymentBapFix]
    currency_type := some CurrencyType.Inr
    grand_total := some ⟨120000, 2⟩ }

/-- Fixture: the same aggregate with the payment collected by the BPP. -/
def orderC2b : Commerce :=
  { orderC2 with
    payments := [{ paymentBapFix with collected_by := some PaymentCollectedBy.Bpp }] }

/-- Counterexample to claim C2 as stated: for a payment with
`collected_by = Bap` the confirm envelope copies the stored per-payment
settlement details and does not emit the caller's registered bank
identity. -/
theorem confirm_settlement_source_counterexample :
    ((getOndcConfirmRequestPayment orderC2 bapDetailFix).map
        fun p => p.settlement_details) = [some [sellerDetailFix.toWire]]
      ∧ sellerDetailFix.toWire ≠ bapSettlementDetail bapDetailFix
      ∧ orderC2.payments.map (fun p => p.collected_by) =
        [some PaymentCollectedBy.Bap] := by
  refine ⟨by decide, by decide, by decide⟩

/-- Claim C2 as amended: the confirm envelope emits the caller's (BAP's)
registered bank identity exactly when the payment's `collected_by` is
`Bpp`, and otherwise copies the per-payment `settlement_details` already
stored on the aggregate (empty when none are stored). -/
theorem confirm_settlement_source_amended (order : Commerce)
    (bap : RegisteredNetworkParticipant) (i : Nat)
    (hi : i < order.payments.length) :
    ((getOndcConfirmRequestPayment order bap).get
        ⟨i, by rw [getOndcConfirmRequestPayment_length]; exact hi⟩).settlement_details =
      some
        (if (order.payments.get ⟨i, hi⟩).collected_by = some PaymentCollectedBy.Bpp
          then [bapSettlementDetail bap]
          else ((order.payments.get ⟨i, hi⟩).settlement_details.getD []).map
            PaymentSettlementDetailModel.toWire) := by
  unfold getOndcConfirmRequestPayment
  simp only [List.get_eq_getElem, List.getElem_map]
  by_cases hc : order.payments[i].collected_by = some PaymentCollectedBy.Bpp
  · simp [hc]
  · cases hsd : order.payments[i].settlement_details <;> simp [hc, hsd]

/-- Witness for the amended C2: with `collected_by = Bpp` the emitted
settlement details are the BAP bank identity, at the concrete fixture. -/
theorem confirm_settlement_source_amended_witness :
    ((getOndcConfirmRequestPayment orderC2b bapDetailFix).get
        ⟨0, by rw [getOndcConfirmRequestPayment_length]; decide⟩).settlement_details =
      some [bapSettlementDetail bapDetailFix] :=
  (confirm_settlement_source_amended orderC2b bapDetailFix 0 (by decide)).trans
    (by decide)

/-- `VectorType` (business credential kind; user client module absent from
the provided sources). -/
inductive VectorType where
  | Gstin
  | PanCardNo
  | ImportLicenseNo
deriving DecidableEq, Repr

/-- Wire-side buyer id type (`get_ondc_vector_type` target). -/
inductive ONDCVectorType where
  | Gstin
  | PanCardNo
deriving DecidableEq, Repr

/-- `ONDCVectorType::to_string()`-like wire text used inside the buyer-id
tag. -/
def ONDCVectorType.toWire : ONDCVectorType → String
  | .Gstin => "gstin"
  | .PanCardNo => "pan"

/-- Modelled from the spec: `VectorType::get_ondc_vector_type()` maps a
supported credential kind to its wire buyer-id type and fails otherwise
(in the source it returns a `Result`). -/
def VectorType.getOndcVectorType : VectorType → Option ONDCVectorType
  | .Gstin => some ONDCVectorType.Gstin
  | .PanCardNo => some ONDCVectorType.PanCardNo
  | .ImportLicenseNo => none

/-- A business-account credential entry (`vectors` element). -/
structure UserVector where
  key : VectorType
  value : String
deriving DecidableEq, Repr

/-- `BusinessAccount` fields read by the search envelope builder. -/
structure BusinessAccountS where
  default_vector_type : VectorType
  vectors : List UserVector
deriving DecidableEq, Repr

/-- Modelled from the spec: `get_vector_val_from_list` (user client module
absent) returns the first credential whose kind matches. -/
def getVectorValFromList (vt : VectorType) (vs : List UserVector) :
    Option UserVector :=
  vs.find? fun v => v.key = vt

/-- `ONDCFeeType`. -/
inductive ONDCFeeType where
  | Percent
  | Amount
deriving DecidableEq, Repr

/-- `ONDCFeeType::get_fee_type`. -/
def ONDCFeeType.getFeeType : FeeType → ONDCFeeType
  | FeeType.Percent => ONDCFeeType.Percent
  | FeeType.Amount => ONDCFeeType.Amount

/-- Wire text of an `ONDCFeeType` inside the buyer-fee tag. -/
def ONDCFeeType.toWire : ONDCFeeType → String
  | .Percent => "percent"
  | .Amount => "amount"

/-- Modelled from the spec: `ONDCTag::get_buyer_fee_tag` builds the
mandatory buyer-fee tag group carrying the fee type and fee value. -/
def ONDCTag.getBuyerFeeTag (feeType : ONDCFeeType) (value : String) : ONDCTag :=
  { descriptorCode := ONDCTagType.BapTerms
    list := [("finder_fee_type", feeType.toWire), ("finder_fee_amount", value)] }

/-- Modelled from the spec: `ONDCTag::get_buyer_id_tag` builds the buyer-id
tag group from the credential kind and value. -/
def ONDCTag.getBuyerIdTagOf (idType : ONDCVectorType) (value : String) : ONDCTag :=
  { descriptorCode := ONDCTagType.BuyerId
    list := [("buyer_id_code", idType.toWire), ("buyer_id_no", value)] }

/-- `get_buyer_id_tag` from `src/routes/ondc/utils.rs` (lines 242-257). -/
def getBuyerIdTag (business : BusinessAccountS) : Except String ONDCTag :=
  let vectorObj :=
    getVectorValFromList business.default_vector_type business.vectors
  match business.default_vector_type.getOndcVectorType with
  | none => Except.error "unsupported vector type"
  | some idType =>
    match vectorObj with
    | some vector => Except.ok (ONDCTag.getBuyerIdTagOf idType vector.value)
    | none => Except.error "Failed to get buyer ID tag"

/-- `get_search_tags` from `src/routes/ondc/utils.rs` (lines 259-279): the
buyer-fee tag followed by the buyer-id tag. -/
def getSearchTags (business : BusinessAccountS)
    (npDetail : RegisteredNetworkParticipant) : Except String (List ONDCTag) :=
  match getBuyerIdTag business with
  | Except.ok idTag =>
    Except.ok
      [ONDCTag.getBuyerFeeTag (ONDCFeeType.getFeeType npDetail.fee_type)
        npDetail.fee_value.toRustString,
       idTag]
  | Except.error e => Except.error e

/-- `ProductSearchType`. -/
inductive ProductSearchType where
  | Item
  | Category
  | City
deriving DecidableEq, Repr

/-- `ProductFulFillmentLocations`. -/
structure ProductFulFillmentLocations where
  latitude : Decimal
  longitude : Decimal
  area_code : String
deriving DecidableEq, Repr

/-- `ProductSearchRequest`, trimmed to the fields the message builder
reads. -/
structure ProductSearchRequest where
  search_type : ProductSearchType
  query : String
  fulfillment_type : Option FulfillmentType
  fulfillment_locations : Option (List ProductFulFillmentLocations)
  payment_type : Option PaymentType
deriving DecidableEq, Repr

/-- Modelled from the spec: `get_gps_string` renders a latitude/longitude
pair (utility module absent from the provided sources). -/
def getGpsString (lat lng : Decimal) : String :=
  lat.toRustString ++ "," ++ lng.toRustString

/-- `ONDCSearchLocation`. -/
structure ONDCSearchLocation where
  gps : String
  area_code : String
deriving DecidableEq, Repr

/-- `ONDCSearchStop`. -/
structure ONDCSearchStop where
  stopType : ONDCFulfillmentStopType
  location : ONDCSearchLocation
deriving DecidableEq, Repr

/-- Wire fulfillment type; `get_ondc_fulfillment_type` maps the internal
type one to one. -/
inductive ONDCFulfillmentType where
  | Delivery
  | SelfPickup
deriving DecidableEq, Repr

/-- `FulfillmentType::get_ondc_fulfillment_type()`. -/
def FulfillmentType.getOndcFulfillmentType :
    FulfillmentType → ONDCFulfillmentType
  | FulfillmentType.Delivery => ONDCFulfillmentType.Delivery
  | FulfillmentType.SelfPickup => ONDCFulfillmentType.SelfPickup

/-- `ONDCSearchFulfillment`. -/
structure ONDCSearchFulfillment where
  ftype : ONDCFulfillmentType
  stops : Option (List ONDCSearchStop)
deriving DecidableEq, Repr

/-- `ONDCSearchDescriptor`. -/
structure ONDCSearchDescriptor where
  name : String
deriving DecidableEq, Repr

/-- `ONDCSearchItem`. -/
structure ONDCSearchItem where
  descriptor : Option ONDCSearchDescriptor
deriving DecidableEq, Repr

/-- `ONDCSearchCategory`. -/
structure ONDCSearchCategory where
  id : String
deriving DecidableEq, Repr

/-- `ONDCSearchPayment` (`r#type` via `get_ondc_payment`, an identity on
the shared payment enumeration). -/
structure ONDCSearchPayment where
  ptype : PaymentType
deriving DecidableEq, Repr

/-- `ONDCSearchIntent`. -/
structure ONDCSearchIntent where
  fulfillment : Option ONDCSearchFulfillment
  tags : List ONDCTag
  payment : Option ONDCSearchPayment
  item : Option ONDCSearchItem
  provider : Option String
  category : Option ONDCSearchCategory
deriving DecidableEq, Repr

/-- `ONDCSearchMessage`. -/
structure ONDCSearchMessage where
  intent : ONDCSearchIntent
deriving DecidableEq, Repr

/-- `get_search_fulfillment_stops` from `src/routes/ondc/utils.rs`
(lines 281-302). -/
def getSearchFulfillmentStops
    (locations : Option (List ProductFulFillmentLocations)) :
    Option (List ONDCSearchStop) :=
  locations.map fun ls =>
    ls.map fun l =>
      { stopType := ONDCFulfillmentStopType.End
        location := { gps := getGpsString l.latitude l.longitude
                      area_code := l.area_code } }

/-- `get_search_by_item` from `src/routes/ondc/utils.rs` (lines 304-314). -/
def getSearchByItem (req : ProductSearchRequest) : Option ONDCSearchItem :=
  if req.search_type = ProductSearchType.Item then
    some { descriptor := some { name := req.query } }
  else none

/-- `get_search_by_category` (lines 316-324). -/
def getSearchByCategory (req : ProductSearchRequest) : Option ONDCSearchCategory :=
  if req.search_type = ProductSearchType.Category then
    some { id := req.query }
  else none

/-- `get_ondc_search_payment_obj` (lines 326-333). -/
def getOndcSearchPaymentObj (payment : Option PaymentType) :
    Option ONDCSearchPayment :=
  payment.map fun p => { ptype := p }

/-- `get_search_fulfillment_obj` (lines 335-348). -/
def getSearchFulfillmentObj (fulfillmentType : Option FulfillmentType)
    (locations : Option (List ProductFulFillmentLocations)) :
    Option ONDCSearchFulfillment :=
  fulfillmentType.map fun ft =>
    { ftype := ft.getOndcFulfillmentType
      stops := getSearchFulfillmentStops locations }

/-- `get_ondc_search_message_obj` from `src/routes/ondc/utils.rs` (lines
350-378): fulfillment and payment objects are only built for non-city
searches; the tags come from `get_search_tags`. -/
def getOndcSearchMessageObj (_user : UserAccount)
    (business : BusinessAccountS) (req : ProductSearchRequest)
    (npDetail : RegisteredNetworkParticipant) :
    Except String ONDCSearchMessage :=
  let fulfillmentObj :=
    if req.search_type ≠ ProductSearchType.City then
      getSearchFulfillmentObj req.fulfillment_type req.fulfillment_locations
    else none
  let paymentObj :=
    if req.search_type ≠ ProductSearchType.City then
      getOndcSearchPaymentObj req.payment_type
    else none
  match getSearchTags business npDetail with
  | Except.error e => Except.error e
  | Except.ok tags =>
    Except.ok
      { intent :=
          { fulfillment := fulfillmentObj
            tags := tags
            payment := paymentObj
            item := getSearchByItem req
            provider := none
            category := getSearchByCategory req } }

/-- Claim C9: for every product search in city mode, the outbound intent
has no fulfillment and its tags are exactly the two-element list of the
buyer-fee tag (from the registered participant's fee type and value) and
the buyer-id tag (from the business account's default vector credential). -/
theorem city_search_intent_shape (u : UserAccount) (business : BusinessAccountS)
    (req : ProductSearchRequest) (np : RegisteredNetworkParticipant)
    (tag : ONDCTag) (hcity : req.search_type = ProductSearchType.City)
    (htag : getBuyerIdTag business = Except.ok tag) :
    (getOndcSearchMessageObj u business req np).map
        (fun m => (m.intent.fulfillment, m.intent.tags)) =
      Except.ok (none,
        [ONDCTag.getBuyerFeeTag (ONDCFeeType.getFeeType np.fee_type)
          np.fee_value.toRustString,
         tag]) := by
  unfold getOndcSearchMessageObj getSearchTags
  rw [htag]
  simp [hcity, Except.map]

/-- Fixture: the S1 business account with a GSTIN default credential. -/
def bizS1 : BusinessAccountS :=
  { default_vector_type := VectorType.Gstin
    vectors := [{ key := VectorType.Gstin, value := "29ABCDE1234F1Z5" }] }

/-- Fixture: the S1 city-mode search request. -/
def reqS1 : ProductSearchRequest :=
  { search_type := ProductSearchType.City
    query := ""
    fulfillment_type := none
    fulfillment_locations := none
    payment_type := none }

/-- Witness for C9 at the S1 fixture: fee tag `percent / 3.0`, buyer-id tag
`gstin / 29ABCDE1234F1Z5`, no fulfillment. -/
theorem city_search_intent_shape_witness :
    (getOndcSearchMessageObj userFix bizS1 reqS1 bapDetailFix).map
        (fun m => (m.intent.fulfillment, m.intent.tags)) =
      Except.ok (none,
        [ONDCTag.getBuyerFeeTag ONDCFeeType.Percent "3.0",
         ONDCTag.getBuyerIdTagOf ONDCVectorType.Gstin "29ABCDE1234F1Z5"]) :=
  (city_search_intent_shape userFix bizS1 reqS1 bapDetailFix
      (ONDCTag.getBuyerIdTagOf ONDCVectorType.Gstin "29ABCDE1234F1Z5")
      (by decide) (by rfl)).trans (by rfl)

/-- `LookupRequest` (the POSTed registry lookup body: subscriber id, domain
and participant type). -/
structure LookupRequest where
  subscriber_id : String
  domain : String
  reqType : ONDCNetworkType
deriving DecidableEq, Repr

/-- The registry's reply to a lookup POST: a JSON array whose elements may
or may not decode as `LookupData`, some non-array JSON, or a transport
failure of the retried POST. -/
inductive RegistryReply where
  | arr (elems : List (Option LookupData))
  | notArr
  | netFail
deriving DecidableEq, Repr

/-- `call_lookup_api` from `src/routes/ondc/utils.rs` (lines 77-100): an
empty array yields `Ok(None)`, otherwise the first element is decoded (a
decode failure, a non-array reply and a transport failure are errors). -/
def callLookupApi : RegistryReply → Except Unit (Option LookupData)
  | RegistryReply.netFail => Except.error ()
  | RegistryReply.notArr => Except.error ()
  | RegistryReply.arr [] => Except.ok none
  | RegistryReply.arr (some d :: _) => Except.ok (some d)
  | RegistryReply.arr (none :: _) => Except.error ()

/-- `get_lookup_data_from_db` from `src/routes/ondc/utils.rs` (lines
119-141): the stored participant entry matching subscriber id, type and
domain. -/
def getLookupDataFromDb (store : List LookupData) (sid : String)
    (t : ONDCNetworkType) (dom : String) : Option LookupData :=
  store.find? fun e =>
    decide (e.subscriber_id = sid ∧ e.npType = t ∧ e.domain = dom)

/-- `save_lookup_data_to_db` from `src/routes/ondc/utils.rs` (lines
143-168): insert with `ON CONFLICT (subscriber_id, type) DO NOTHING`. -/
def saveLookupDataToDb (store : List LookupData) (d : LookupData) :
    List LookupData :=
  if store.any fun e =>
      decide (e.subscriber_id = d.subscriber_id ∧ e.npType = d.npType) then
    store
  else store ++ [d]

/-- Observable outcome of one `fetch_lookup_data` call: the returned
value, the local store afterwards, and whether the registry was POSTed. -/
structure FetchLookupOutcome where
  result : Except Unit (Option LookupData)
  store : List LookupData
  registryCalled : Bool

/-- `fetch_lookup_data` from `src/routes/ondc/utils.rs` (lines 170-191):
local store first; on a miss, POST the lookup body to the registry (via
`get_lookup_for_subscriber_by_api`), persist a hit with the skip-on-conflict
upsert, and return it. -/
def fetchLookupData (store : List LookupData)
    (registry : LookupRequest → RegistryReply) (sid : String)
    (t : ONDCNetworkType) (dom : String) : FetchLookupOutcome :=
  match getLookupDataFromDb store sid t dom with
  | some d => ⟨Except.ok (some d), store, false⟩
  | none =>
    match callLookupApi (registry ⟨sid, dom, t⟩) with
    | Except.error e => ⟨Except.error e, store, true⟩
    | Except.ok none => ⟨Except.ok none, store, true⟩
    | Except.ok (some d) => ⟨Except.ok (some d), saveLookupDataToDb store d, true⟩

/-- Claim C6: a local hit is returned without contacting the registry; on a
local miss the registry lookup body is POSTed, an empty array yields
`Ok(None)` with the store untouched, and a non-empty array's first element
is returned after a skip-on-conflict upsert of (subscriber_id, role). -/
theorem lookup_two_tier (store : List LookupData)
    (registry : LookupRequest → RegistryReply) (sid : String)
    (t : ONDCNetworkType) (dom : String) :
    (∀ d, getLookupDataFromDb store sid t dom = some d →
      fetchLookupData store registry sid t dom =
        ⟨Except.ok (some d), store, false⟩)
    ∧ (getLookupDataFromDb store sid t dom = none →
        registry ⟨sid, dom, t⟩ = RegistryReply.arr [] →
        fetchLookupData store registry sid t dom =
          ⟨Except.ok none, store, true⟩)
    ∧ (∀ d rest, getLookupDataFromDb store sid t dom = none →
        registry ⟨sid, dom, t⟩ = RegistryReply.arr (some d :: rest) →
        fetchLookupData store registry sid t dom =
          ⟨Except.ok (some d),
           if store.any fun e =>
               decide (e.subscriber_id = d.subscriber_id ∧ e.npType = d.npType)
             then store else store ++ [d],
           true⟩) := by
  refine ⟨?_, ?_, ?_⟩
  · intro d hd
    unfold fetchLookupData
    rw [hd]
  · intro hmiss hreg
    unfold fetchLookupData
    rw [hmiss, hreg]
    rfl
  · intro d rest hmiss hreg
    unfold fetchLookupData
    rw [hmiss, hreg]
    rfl

/-- Fixture: a local store already holding the BPP entry. -/
def storeFix : List LookupData := [bppDetailFix]

/-- Fixture: a registry that would answer with a non-array reply (never
consulted in the witness). -/
def registryFix : LookupRequest → RegistryReply := fun _ => RegistryReply.notArr

/-- Witness for C6: on the warm store the entry is returned with no
registry call and the store unchanged. -/
theorem lookup_two_tier_witness :
    fetchLookupData storeFix registryFix "bpp.example.com"
        ONDCNetworkType.Bpp "ONDC:RET10" =
      ⟨Except.ok (some bppDetailFix), storeFix, false⟩ :=
  (lookup_two_tier storeFix registryFix "bpp.example.com"
      ONDCNetworkType.Bpp "ONDC:RET10").1 bppDetailFix (by rfl)

/-- The select handler's combination of the outbound-audit persist and the
envelope POST (`src/routes/order/handlers.rs` lines 117-139):
`tokio::try_join!(task_4, task_5)` collapses the pair to the error of
whichever subtask fails (modelled audit-first when both fail), and only an
all-ok pair lets the action succeed. -/
def orderSelectDispatch (audit post : Except String Unit) : Except String Unit :=
  match audit, post with
  | Except.error e, _ => Except.error e
  | _, Except.error e => Except.error e
  | _, _ => Except.ok ()

/-- The init/confirm/status/cancel/update handlers' combination of the same
two subtasks (`src/routes/order/handlers.rs` lines 240, 322, 401, 481,
561): `futures::future::join(task_3, task_4).await.1?` awaits both but
propagates only the POST result, discarding the audit persist outcome. -/
def orderJoinDispatch (audit post : Except String Unit) : Except String Unit :=
  (audit, post).2

/-- Counterexample to claim C8 as stated: when the audit persist fails and
the POST succeeds, the init-family handlers return success, whereas the
select handler returns the error. -/
theorem audit_failure_swallowed_counterexample :
    orderJoinDispatch (Except.error "db down") (Except.ok ()) = Except.ok ()
      ∧ orderSelectDispatch (Except.error "db down") (Except.ok ()) =
        Except.error "db down" :=
  ⟨rfl, rfl⟩

/-- Claim C8 as amended: the audit persist and the POST run as joint
subtasks and each action returns exactly one outcome, but only `select`
collapses to the first error of either subtask; `init`, `confirm`,
`status`, `cancel` and `update` propagate only the POST outcome, so an
audit-persist failure there does not make the action return an error. -/
theorem dispatch_outcome_amended :
    (∀ audit post : Except String Unit,
      orderSelectDispatch audit post = Except.ok () ↔
        audit = Except.ok () ∧ post = Except.ok ())
    ∧ (∀ audit post : Except String Unit, orderJoinDispatch audit post = post) := by
  constructor
  · intro audit post
    cases audit <;> cases post <;> simp [orderSelectDispatch]
  · intro audit post
    rfl

/-- A price slab blob (`WSPriceSlab` / `ONDCSellePriceSlab`; the
`get_ondc_seller_slab_from_ws_slab` conversion copies fields one to one). -/
structure PriceSlab where
  min : Decimal
  max : Decimal
  price_with_tax : Decimal
  price_without_tax : Decimal
deriving DecidableEq, Repr

/-- The price block of an ingested catalog item (`WSSearchItemPrice`). -/
structure WSSearchItemPrice where
  maximum_value : Decimal
  price_with_tax : Decimal
  price_without_tax : Decimal
  currency : CurrencyType
deriving DecidableEq, Repr

/-- An ingested catalog item (`WSSearchItem`), trimmed to the fields read
by `create_bulk_seller_product_info_objs`. -/
structure WSSearchItem where
  id : String
  code : Option String
  name : String
  tax_rate : Decimal
  price : WSSearchItemPrice
  images : List String
  price_slabs : Option (List PriceSlab)
deriving DecidableEq, Repr

/-- A provider of an ingested on_search payload (`provider_detail.id` plus
its items). -/
structure WSProviderM where
  providerId : String
  items : List WSSearchItem
deriving DecidableEq, Repr

/-- An ingested on_search catalog payload (`WSSearchData`), trimmed to the
fields read by the item bulk upsert. -/
structure WSSearchDataM where
  bppSubscriberId : String
  providers : List WSProviderM
deriving DecidableEq, Repr

/-- An `ondc_seller_product_info` row; the natural key is
(seller_subscriber_id, country_code, provider_id, item_id). -/
structure ProductRow where
  seller_subscriber_id : String
  country_code : CountryCode
  provider_id : String
  item_id : String
  item_code : Option String
  item_name : String
  tax_rate : Decimal
  images : List String
  unit_price_with_tax : Decimal
  unit_price_without_tax : Decimal
  mrp : Decimal
  currency_code : CurrencyType
  price_slab : Option (List PriceSlab)
deriving DecidableEq, Repr

/-- Whether two product rows share the natural key of the item table. -/
def ProductRow.sameKey (a b : ProductRow) : Bool :=
  decide (a.seller_subscriber_id = b.seller_subscriber_id
    ∧ a.country_code = b.country_code
    ∧ a.provider_id = b.provider_id
    ∧ a.item_id = b.item_id)

/-- `create_bulk_seller_product_info_objs` from `src/routes/ondc/utils.rs`
(lines 1150-1209): flatten providers and items to full incoming rows. -/
def createBulkSellerProductInfoObjs (body : WSSearchDataM)
    (code : CountryCode) : List ProductRow :=
  body.providers.flatMap fun provider =>
    provider.items.map fun item =>
      { seller_subscriber_id := body.bppSubscriberId
        country_code := code
        provider_id := provider.providerId
        item_id := item.id
        item_code := item.code
        item_name := item.name
        tax_rate := item.tax_rate
        images := item.images
        unit_price_with_tax := item.price.price_with_tax
        unit_price_without_tax := item.price.price_without_tax
        mrp := item.price.maximum_value
        currency_code := item.price.currency
        price_slab := item.price_slabs }

/-- The `DO UPDATE SET` list of the item upsert
(`src/routes/ondc/utils.rs` lines 1251-1259), applied to an existing row.
It reproduces the source verbatim: `item_code` and `currency_code` are not
in the list, and the source assigns
`unit_price_without_tax = EXCLUDED.unit_price_with_tax`. -/
def productOnConflictUpdate (old incoming : ProductRow) : ProductRow :=
  { old with
    item_name := incoming.item_name
    tax_rate := incoming.tax_rate
    images := incoming.images
    unit_price_with_tax := incoming.unit_price_with_tax
    unit_price_without_tax := incoming.unit_price_with_tax
    mrp := incoming.mrp
    price_slab := incoming.price_slab }

/-- One row of the `INSERT .. ON CONFLICT .. DO UPDATE` statement applied
to the table state. -/
def upsertProductRow (table : List ProductRow) (r : ProductRow) :
    List ProductRow :=
  if table.any fun old => ProductRow.sameKey r old then
    table.map fun old =>
      if ProductRow.sameKey r old then productOnConflictUpdate old r else old
  else table ++ [r]

/-- `save_ondc_seller_product_info` from `src/routes/ondc/utils.rs` (lines
1211-1284): the bulk upsert of the flattened incoming rows. -/
def saveOndcSellerProductInfo (table : List ProductRow) (body : WSSearchDataM)
    (code : CountryCode) : List ProductRow :=
  (createBulkSellerProductInfoObjs body code).foldl upsertProductRow table

/-- Fixture: a catalog item whose with-tax and without-tax unit prices
differ (118.00 vs 100.00). -/
def itemFixC3 : WSSearchItem :=
  { id := "I1"
    code := some "SKU1"
    name := "Widget"
    tax_rate := ⟨180, 1⟩
    price :=
      { maximum_value := ⟨11800, 2⟩
        price_with_tax := ⟨11800, 2⟩
        price_without_tax := ⟨10000, 2⟩
        currency := CurrencyType.Inr }
    images := ["https://img.example.com/widget.png"]
    price_slabs := none }

/-- Fixture: the on_search payload carrying `itemFixC3`. -/
def bodyC3 : WSSearchDataM :=
  { bppSubscriberId := "bpp.example.com"
    providers := [{ providerId := "P1", items := [itemFixC3] }] }

/-- The item table after ingesting `bodyC3` once into an empty store. -/
def productTableOnce : List ProductRow :=
  saveOndcSellerProductInfo [] bodyC3 ("IND" : String)

/-- The item table after ingesting the same payload a second time. -/
def productTableTwice : List ProductRow :=
  saveOndcSellerProductInfo productTableOnce bodyC3 ("IND" : String)

/-- Claim C3 evaluated at the failing input: ingesting the same payload
twice does not yield the rows of a single ingest, because the conflict
update assigns the incoming with-tax price to `unit_price_without_tax`
(and leaves `item_code`/`currency_code` untouched rather than replacing
every non-key field). -/
theorem catalog_item_upsert_not_idempotent :
    (productTableOnce.map fun r => r.unit_price_without_tax) = [⟨10000, 2⟩]
      ∧ (productTableTwice.map fun r => r.unit_price_without_tax) = [⟨11800, 2⟩]
      ∧ productTableTwice ≠ productTableOnce := by
  refine ⟨by decide, by decide, by decide⟩

/-- `SellerProductInfo` (catalog fields read back by the order item
persistence; `images` is the stored JSON array of image URLs). -/
structure SellerProductInfo where
  item_code : Option String
  item_name : String
  images : List String
  mrp : Decimal
  unit_price : Decimal
  tax_rate : Decimal
  provider_name : Option String
deriving DecidableEq, Repr

/-- `get_ondc_seller_mapping_key`: the three identifiers joined by an
underscore (`src/routes/ondc/utils.rs` lines 1313-1319). -/
def getOndcSellerMappingKey (bppId providerId itemId : String) : String :=
  bppId ++ "_" ++ providerId ++ "_" ++ itemId

/-- `get_quote_item_value_mapping` from `src/routes/order/utils.rs` (lines
727-742) applied at one item id: the map is built by `HashMap::insert`, so
the last matching breakup line wins; unparsable values default to zero. -/
def getQuoteItemValueMapping (breakups : List ONDCBreakUp)
    (titleType : BreakupTitleType) (itemId : String) : Option Decimal :=
  ((breakups.filter fun b =>
      decide (b.title_type = titleType ∧ b.item_id = some itemId)).map
    fun b => (Decimal.fromStr b.price.value).getD Decimal.zero).getLast?

/-- `get_quote_item_breakup_mapping` (lines 744-757) applied at one item
id; last insert wins. -/
def getQuoteItemBreakupMapping (breakups : List ONDCBreakUp)
    (titleType : BreakupTitleType) (itemId : String) : Option ONDCBreakUp :=
  (breakups.filter fun b =>
    decide (b.title_type = titleType ∧ b.item_id = some itemId)).getLast?

/-- A `buyer_commerce_data_line` row as inserted by the on_select path. -/
structure BuyerCommerceItemRow where
  item_id : String
  item_name : String
  item_code : Option String
  item_image : String
  qty : Decimal
  location_ids : List String
  fulfillment_ids : List String
  tax_rate : Decimal
  mrp : Decimal
  unit_price : Decimal
  discount_amount : Decimal
  tax_value : Decimal
  gross_total : Decimal
  available_qty : Decimal
  item_req : Option String
  packaging_req : Option String
deriving DecidableEq, Repr

/-- The per-item row computation of `save_order_on_select_items` from
`src/routes/order/utils.rs` (lines 820-1003): unit price, available
quantity and gross total come from the item-titled breakup line, tax and
discount from their breakup mappings, the remaining catalog fields from the
seller product map (zero/blank on a miss). -/
def saveOrderOnSelectItemRow (onSel : ONDCOnSelectRequest)
    (productMap : List (String × SellerProductInfo))
    (item : ONDCOnSelectItem) : BuyerCommerceItemRow :=
  let key := getOndcSellerMappingKey (onSel.context.bpp_id.getD "")
    onSel.order.providerId item.id
  let discountAmount :=
    (getQuoteItemValueMapping onSel.order.quote.breakup BreakupTitleType.Discount
      item.id).getD Decimal.zero
  let taxAmount :=
    (getQuoteItemValueMapping onSel.order.quote.breakup BreakupTitleType.Tax
      item.id).getD Decimal.zero
  let itemBreakup :=
    getQuoteItemBreakupMapping onSel.order.quote.breakup BreakupTitleType.Item
      item.id
  let priceTriple :=
    match itemBreakup with
    | some b =>
      ((b.item.map fun (a : ONDCBreakupItemInfo) =>
          (Decimal.fromStr a.price.value).getD Decimal.zero).getD Decimal.zero,
       (b.quantity.map fun (a : ONDCQuantityCountInt) =>
          Decimal.ofInt a.count).getD Decimal.zero,
       (Decimal.fromStr b.price.value).getD Decimal.zero)
    | none => (Decimal.zero, Decimal.zero, Decimal.zero)
  let sellerInfo := (productMap.find? fun e => decide (e.1 = key)).map Prod.snd
  { item_id := item.id
    item_name := (sellerInfo.map fun s => s.item_name).getD ""
    item_code := (sellerInfo.map fun s => s.item_code).getD none
    item_image := (sellerInfo.map fun s => (s.images.head?).getD "").getD ""
    qty := Decimal.ofInt item.quantity.selectedCount
    location_ids := item.location_ids
    fulfillment_ids := item.fulfillment_ids
    tax_rate := (sellerInfo.map fun s => s.tax_rate).getD Decimal.zero
    mrp := (sellerInfo.map fun s => s.mrp).getD Decimal.zero
    unit_price := priceTriple.1
    discount_amount := discountAmount
    tax_value := taxAmount
    gross_total := priceTriple.2.2
    available_qty := priceTriple.2.1
    item_req := item.tags.map fun tag =>
      (getTagValueFromList tag ONDCTagType.BuyerTerms
        ONDCTagItemCode.ItemReq.toWire).getD ""
    packaging_req := item.tags.map fun tag =>
      (getTagValueFromList tag ONDCTagType.BuyerTerms
        ONDCTagItemCode.PackagingsReq.toWire).getD "" }

/-- A `buyer_commerce_payment` row as inserted by the on_select path. -/
structure PaymentOnSelectRow where
  collected_by : ONDCNetworkType
  payment_type : PaymentType
deriving DecidableEq, Repr

/-- `save_payment_obj_on_select` from `src/routes/order/utils.rs` (lines
785-818), reduced to the rows it inserts. -/
def savePaymentObjOnSelectRows (payments : List ONDCOnSelectPayment) :
    List PaymentOnSelectRow :=
  payments.map fun p =>
    { collected_by := p.collected_by, payment_type := p.paymentType }

/-- A `buyer_commerce_fulfillment_data` row as inserted by the on_select
path. -/
structure FulfillmentOnSelectRow where
  fulfillment_id : String
  fulfillment_type : FulfillmentType
  inco_terms : Option String
  place_of_delivery : Option String
  drop_off : Option DropOffDataModel
  pickup : Option PickUpDataModel
  provider_name : Option String
  servicable_status : ServiceableType
  tracking : Bool
  tat : String
  category : FulfillmentCategoryType
deriving DecidableEq, Repr

/-- `save_on_select_fulfillment` from `src/routes/order/utils.rs` (lines
496-581), reduced to the rows it inserts.  `none` models the panics: the
`select_fulfillment[0]` / `stops[0]` indexing inside
`create_drop_off_from_ondc_select_fulfullment` and the `e[0]` indexing of
the select fulfillment's tag list. -/
def saveOnSelectFulfillmentRows (selFs : List ONDCSelectFulfillmentMsg)
    (onSelFs : List ONDCOnSelectFulfillment) :
    Option (List FulfillmentOnSelectRow) :=
  match createDropOffFromOndcSelectFulfillment selFs with
  | none => none
  | some dropOff =>
    match selFs.head? with
    | none => none
    | some f0 =>
      onSelFs.mapM fun f => do
        let incoTerms ←
          match f0.tags with
          | none => some none
          | some ts =>
            match ts.head? with
            | none => none
            | some t =>
              some (some ((t.getTagValue ONDCTagItemCode.IncoTerms.toWire).getD ""))
        let place ←
          match f0.tags with
          | none => some none
          | some ts =>
            match ts.head? with
            | none => none
            | some t =>
              some (some
                ((t.getTagValue ONDCTagItemCode.NamedPlaceOfDelivery.toWire).getD ""))
        pure
          { fulfillment_id := f.id
            fulfillment_type :=
              if f.category = ONDCFulfillmentCategoryType.SelfPickup then
                FulfillmentType.SelfPickup
              else FulfillmentType.Delivery
            inco_terms := incoTerms
            place_of_delivery := place
            drop_off := dropOff
            pickup := createPickOffFromOndcSelectFulfillment f.stops
            provider_name := f.provider_name
            servicable_status := f.servicable_status
            tracking := f.tracking
            tat := f.tat
            category := f.category.getCategoryType }

/-- A stored commerce header with its generated primary key (needed to
key the child tables, as in the schema). -/
structure HeaderRecord where
  id : Nat
  row : BuyerCommerceDataRow
deriving DecidableEq, Repr

/-- A stored order line keyed by its owning commerce header. -/
structure ItemRecord where
  commerce_data_id : Nat
  row : BuyerCommerceItemRow
deriving DecidableEq, Repr

/-- A stored payment keyed by its owning commerce header. -/
structure PaymentRecord where
  commerce_data_id : Nat
  row : PaymentOnSelectRow
deriving DecidableEq, Repr

/-- A stored fulfillment keyed by its owning commerce header. -/
structure FulfillmentRecord where
  commerce_data_id : Nat
  row : FulfillmentOnSelectRow
deriving DecidableEq, Repr

/-- The four commerce tables touched by the on_select transition. -/
structure DBState where
  headers : List HeaderRecord
  lines : List ItemRecord
  payments : List PaymentRecord
  fulfillments : List FulfillmentRecord
deriving DecidableEq, Repr

/-- `delete_order` from `src/routes/order/utils.rs` (lines 324-346):
delete the header by `external_urn`; the child tables reference the header
with cascading foreign keys, so their rows go with it. -/
def deleteOrderOp (tid : Nat) (db : DBState) : DBState :=
  let victims := (db.headers.filter fun h =>
    decide (h.row.external_urn = tid)).map fun h => h.id
  { headers := db.headers.filter fun h => decide (¬ h.row.external_urn = tid)
    lines := db.lines.filter fun l => decide (¬ l.commerce_data_id ∈ victims)
    payments := db.payments.filter fun p => decide (¬ p.commerce_data_id ∈ victims)
    fulfillments := db.fulfillments.filter fun f =>
      decide (¬ f.commerce_data_id ∈ victims) }

/-- Insert the freshly keyed commerce header (the `ON CONFLICT
(external_urn)` arm is unreachable inside `initialize_order_on_select`
because `delete_order` ran first in the same transaction). -/
def insertHeaderOp (orderId : Nat) (row : BuyerCommerceDataRow)
    (db : DBState) : DBState :=
  { db with headers := db.headers ++ [⟨orderId, row⟩] }

/-- Insert the order lines for the fresh header (the `ON CONFLICT
(commerce_data_id, item_code)` arm cannot fire against pre-existing rows of
the fresh key). -/
def insertItemsOp (orderId : Nat) (rows : List BuyerCommerceItemRow)
    (db : DBState) : DBState :=
  { db with lines := db.lines ++ rows.map fun r => ⟨orderId, r⟩ }

/-- Insert the payments for the fresh header. -/
def insertPaymentsOp (orderId : Nat) (rows : List PaymentOnSelectRow)
    (db : DBState) : DBState :=
  { db with payments := db.payments ++ rows.map fun r => ⟨orderId, r⟩ }

/-- Insert the fulfillments for the fresh header. -/
def insertFulfillmentsOp (orderId : Nat) (rows : List FulfillmentOnSelectRow)
    (db : DBState) : DBState :=
  { db with fulfillments := db.fulfillments ++ rows.map fun r => ⟨orderId, r⟩ }

/-- An open transaction: the pending (uncommitted) state plus the Postgres
aborted flag.  Once a statement fails, Postgres aborts the transaction and
every later statement in it fails with `current transaction is aborted`. -/
structure TxnState where
  db : DBState
  aborted : Bool

/-- Execute one statement inside the transaction, with a fault oracle bit
saying whether the database fails this statement: on an aborted
transaction the statement fails without effect; on a fault it fails and
aborts the transaction; otherwise it applies its effect.  The returned
flag is the statement's success. -/
def execStmt (fault : Bool) (f : DBState → DBState) (t : TxnState) :
    TxnState × Bool :=
  if t.aborted then (t, false)
  else if fault then ({ t with aborted := true }, false)
  else ({ t with db := f t.db }, true)

/-- Fault oracle for the on_select transaction: one bit per statement plus
one for the `COMMIT` itself. -/
structure TxnFaults where
  deleteOrder : Bool
  header : Bool
  items : Bool
  payments : Bool
  fulfillments : Bool
  commit : Bool
deriving DecidableEq, Repr

/-- Some statement of the transaction (or its commit) fails. -/
def TxnFaults.any (f : TxnFaults) : Bool :=
  f.deleteOrder || f.header || f.items || f.payments || f.fulfillments || f.commit

/-- Outcome of `initialize_order_on_select`: the durable database state
after the call returns, and whether the call returned `Ok`. -/
structure RunOutcome where
  db : DBState
  ok : Bool

/-- `initialize_order_on_select` from `src/routes/order/utils.rs` (lines
653-725) under the transaction model: begin, `delete_order`, insert header
(`?`), insert items with the result discarded (`let _ = ...` on line 698),
insert payments (`?`), insert fulfillments (`?`), commit.  An error return
drops the transaction, so the durable state stays the initial one; `none`
models the panics of the row computations.  A commit reached on an aborted
transaction would roll back (Postgres turns the `COMMIT` into a
`ROLLBACK`). -/
def initOrderOnSelectRun (faults : TxnFaults) (orderId : Nat)
    (onSel : ONDCOnSelectRequest) (sel : ONDCSelectRequestM)
    (user : UserAccount) (business : BusinessAccountCore)
    (productMap : List (String × SellerProductInfo)) (db0 : DBState) :
    Option RunOutcome :=
  let providerName :=
    ((productMap.head?).bind fun e => e.2.provider_name).getD ""
  let t0 : TxnState := ⟨db0, false⟩
  let s1 := execStmt faults.deleteOrder
    (deleteOrderOp sel.context.transaction_id) t0
  if s1.2 = false then some ⟨db0, false⟩ else
  match saveBuyerOrderDataOnSelectRow sel onSel user business providerName with
  | none => none
  | some headerRow =>
    let s2 := execStmt faults.header (insertHeaderOp orderId headerRow) s1.1
    if s2.2 = false then some ⟨db0, false⟩ else
    let itemRows :=
      onSel.order.items.map (saveOrderOnSelectItemRow onSel productMap)
    let s3 := execStmt faults.items (insertItemsOp orderId itemRows) s2.1
    let s4 := execStmt faults.payments
      (insertPaymentsOp orderId (savePaymentObjOnSelectRows onSel.order.payments))
      s3.1
    if s4.2 = false then some ⟨db0, false⟩ else
    match saveOnSelectFulfillmentRows sel.fulfillments onSel.order.fulfillments with
    | none => none
    | some fulRows =>
      let s5 := execStmt faults.fulfillments
        (insertFulfillmentsOp orderId fulRows) s4.1
      if s5.2 = false then some ⟨db0, false⟩ else
      if faults.commit then some ⟨db0, false⟩
      else if s5.1.aborted then some ⟨db0, true⟩
      else some ⟨s5.1.db, true⟩

/-- Claim C1: for every on_select callback processed by
`initialize_order_on_select`, if any of the multi-table statements (or the
commit) fails - in particular the item-line insert, whose error the source
discards - then nothing is committed: header, item, payment and
fulfillment tables are exactly as before the callback.  The discarded
item-insert failure still aborts the Postgres transaction, so the
following payments statement fails and the function returns before
commit. -/
theorem on_select_transition_atomic
    (faults : TxnFaults) (orderId : Nat) (onSel : ONDCOnSelectRequest)
    (sel : ONDCSelectRequestM) (u : UserAccount) (b : BusinessAccountCore)
    (pm : List (String × SellerProductInfo)) (db0 : DBState)
    (out : RunOutcome)
    (hrun : initOrderOnSelectRun faults orderId onSel sel u b pm db0 = some out)
    (hfault : faults.any = true) :
    out.db = db0 := by
  obtain ⟨d, h, i, p, fl, c⟩ := faults
  cases d <;> cases h <;> cases i <;> cases p <;> cases fl <;> cases c <;>
    first
    | exact absurd hfault (by decide)
    | (simp [initOrderOnSelectRun, execStmt] at hrun
       all_goals repeat' split at hrun
       all_goals
         first
         | exact Option.noConfusion hrun
         | (injection hrun with h2
            exact (congrArg RunOutcome.db h2).symm)
         | exact (congrArg RunOutcome.db hrun).symm)

/-- Fixture: a database holding one unrelated prior aggregate. -/
def db0Fix : DBState :=
  { headers := [⟨9, rfqRowC7⟩]
    lines := []
    payments := []
    fulfillments := [] }

/-- Fixture: the fault oracle failing exactly the item-line insert. -/
def faultsItemsOnly : TxnFaults :=
  { deleteOrder := false, header := false, items := true
    payments := false, fulfillments := false, commit := false }

/-- The outcome of the on_select transition under the item-insert fault at
the concrete fixtures. -/
def outC1 : RunOutcome :=
  (initOrderOnSelectRun faultsItemsOnly 42 onSelFixA selFixA userFix bizFix
    [] db0Fix).getD ⟨⟨[], [], [], []⟩, false⟩

/-- Witness for C1: with the item-line insert failing, the durable state
after the callback equals the initial one. -/
theorem on_select_transition_atomic_witness : outC1.db = db0Fix :=
  on_select_transition_atomic faultsItemsOnly 42 onSelFixA selFixA userFix
    bizFix [] db0Fix outC1 (by rfl) (by decide)

/-- Sanity check of the transaction model: with no faults the on_select
transition commits and the durable state changes. -/
theorem on_select_no_fault_commits :
    ((initOrderOnSelectRun ⟨false, false, false, false, false, false⟩ 42
        onSelFixA selFixA userFix bizFix [] db0Fix).map fun o => o.ok) =
        some true
      ∧ ((initOrderOnSelectRun ⟨false, false, false, false, false, false⟩ 42
        onSelFixA selFixA userFix bizFix [] db0Fix).map fun o => o.db) ≠
        some db0Fix := by
  refine ⟨by decide, by decide⟩
